import Mathlib

/-!
Verification of the conversation-flow engine of the sentinel-voice-engine
repository (`src/core/conversation_flow_manager.py` and the pattern catalog in
`src/core/prompts.py`, with the data model of `src/core/models.py`).

The Python code is shallowly embedded: strings are `String`/`List Char`,
`re.search` with `re.IGNORECASE` is given an executable backtracking matcher
over an abstract-syntax rendering of exactly the pattern strings appearing in
the source, fallible external calls (the LLM generator) are `Option`-valued
function parameters, and the mutation of the session-state object is explicit
state passing.  ASCII case conventions are used throughout, matching the
ASCII-only pattern catalog of the source.
-/

namespace Sentinel

/-- ASCII rendering of the apostrophe character, used inside string data that
the source writes with a literal apostrophe. -/
def apoc : Char := Char.ofNat 39

/-- One-character string holding the apostrophe. -/
def apoS : String := String.mk [apoc]

/-- Python `str` whitespace for `.strip()` / `.split()` / `\s` (ASCII part):
space, tab, newline, carriage return, vertical tab, form feed. -/
def pyIsSpace (c : Char) : Bool :=
  c == ' ' || c == '\t' || c == '\n' || c == '\r' || c == Char.ofNat 11 || c == Char.ofNat 12

/-- Python `str.strip()` on a character list: drop whitespace at both ends. -/
def pstripL (s : List Char) : List Char :=
  ((s.dropWhile pyIsSpace).reverse.dropWhile pyIsSpace).reverse

/-- Python `str.lower()` (ASCII). -/
def pyLower (s : List Char) : List Char := s.map Char.toLower

/-- Python `str.capitalize()` on one word: first character uppercased, the
rest lowercased. -/
def pyCapitalize (w : List Char) : List Char :=
  match w with
  | [] => []
  | c :: rest => c.toUpper :: rest.map Char.toLower

/-- Python `str.split()` (no argument): split on whitespace runs, no empties. -/
def pySplitAux (s : List Char) (acc : List Char) : List (List Char) :=
  match s with
  | [] => if acc.isEmpty then [] else [acc.reverse]
  | c :: rest =>
      if pyIsSpace c then
        if acc.isEmpty then pySplitAux rest [] else acc.reverse :: pySplitAux rest []
      else pySplitAux rest (c :: acc)

def pySplit (s : List Char) : List (List Char) := pySplitAux s []

/-- `sep.join(parts)`. -/
def joinSep (sep : String) (parts : List String) : String :=
  match parts with
  | [] => ""
  | p :: rest => rest.foldl (fun acc q => acc ++ sep ++ q) p

/-- Python substring test `needle in hay` on character lists. -/
def listContainsSub (needle hay : List Char) : Bool :=
  match hay with
  | [] => needle.isEmpty
  | _ :: rest => needle.isPrefixOf hay || listContainsSub needle rest

/-- Python truthiness of an optional string (`None` and `""` are falsy). -/
def optTruthy (o : Option String) : Bool :=
  match o with
  | some s => !(s == "")
  | none => false

/-! ## A small regular-expression engine

Executable model of CPython `re.search(pattern, text, re.IGNORECASE)` for the
pattern language actually used by the catalog in `src/core/prompts.py`:
literals, character classes (ranges, single characters, `\s`, `\d`) under
greedy or lazy counted quantifiers, `.`, the anchors `^`, `$`, `\b`, and one
level of (capturing or non-capturing) groups of alternatives.  The search is
leftmost: start positions are tried left to right, and at a given start the
backtracking order is Python's (alternatives first to last, greedy longest
first, lazy shortest first). -/

/-- Character-class atom. -/
inductive CAtom where
  | ch (c : Char)
  | rng (lo hi : Char)
  | ws
  | dig
deriving DecidableEq, Repr

def catomMatch (a : CAtom) (c : Char) : Bool :=
  match a with
  | .ch d => d == c
  | .rng lo hi => Nat.ble lo.toNat c.toNat && Nat.ble c.toNat hi.toNat
  | .ws => pyIsSpace c
  | .dig => c.isDigit

/-- `re.IGNORECASE` class membership: the character matches if it, its
lowercase form, or its uppercase form is in the class. -/
def catomMatchCI (a : CAtom) (c : Char) : Bool :=
  catomMatch a c || catomMatch a c.toLower || catomMatch a c.toUpper

/-- A single-character regex atom: a character class or `.`. -/
inductive RAtom where
  | cls (atoms : List CAtom)
  | dot
deriving DecidableEq, Repr

def ratomMatch (a : RAtom) (c : Char) : Bool :=
  match a with
  | .cls as => as.any (fun x => catomMatchCI x c)
  | .dot => !(c == '\n')

/-- A quantifier-free or quantified piece of a pattern. -/
inductive Piece where
  /-- literal character sequence, matched case-insensitively -/
  | lit (cs : List Char)
  /-- `a{lo,hi}` (`hi = none` for unbounded), greedy or lazy -/
  | rep (a : RAtom) (lo : Nat) (hi : Option Nat) (lazy : Bool)
  /-- `\b` -/
  | wb
  /-- `^` -/
  | bol
  /-- `$` -/
  | eol
deriving DecidableEq, Repr

/-- A top-level pattern item: a piece, or a group of alternatives (each
alternative a piece sequence), capturing or not. -/
inductive Item where
  | pc (p : Piece)
  | grp (capture : Bool) (alts : List (List Piece))
deriving DecidableEq, Repr

/-- A pattern is a sequence of items. -/
abbrev RPattern := List Item

/-- Match outcome at a fixed start: end position and the span of the
leftmost capturing group, when one participated. -/
structure MRes where
  stop : Nat
  cap : Option (Nat × Nat)
deriving DecidableEq, Repr

/-- Length of the longest run of characters satisfying the atom. -/
def runLenAux (a : RAtom) : List Char → Nat
  | [] => 0
  | c :: rest => if ratomMatch a c then runLenAux a rest + 1 else 0

def runLen (a : RAtom) (s : List Char) (i : Nat) : Nat := runLenAux a (s.drop i)

/-- Candidate repetition counts in backtracking order: greedy from the
longest feasible down to `lo`, lazy from `lo` up. -/
def countsFor (lo : Nat) (hi : Option Nat) (lazy : Bool) (run : Nat) : List Nat :=
  let top := match hi with
    | none => run
    | some h => min h run
  if top < lo then []
  else if lazy then (List.range (top - lo + 1)).map (fun d => lo + d)
  else (List.range (top - lo + 1)).map (fun d => top - d)

/-- Word character for `\b`: `[a-zA-Z0-9_]`. -/
def isWordChar (c : Char) : Bool := c.isAlphanum || c == '_'

def wordBoundary (s : List Char) (i : Nat) : Bool :=
  let before := match i with
    | 0 => false
    | Nat.succ j =>
        match s.get? j with
        | some c => isWordChar c
        | none => false
  let after := match s.get? i with
    | some c => isWordChar c
    | none => false
  before != after

/-- Case-insensitive literal match; returns the end position. -/
def litMatch (cs : List Char) (s : List Char) (i : Nat) : Option Nat :=
  match cs with
  | [] => some i
  | c :: rest =>
      match s.get? i with
      | some d => if c.toLower == d.toLower then litMatch rest s (i + 1) else none
      | none => none

/-- Match one piece at position `i`, continuing with `k`. -/
def pieceMatch (p : Piece) (s : List Char) (i : Nat) (k : Nat → Option MRes) : Option MRes :=
  match p with
  | .lit cs =>
      match litMatch cs s i with
      | some j => k j
      | none => none
  | .rep a lo hi lazy =>
      (countsFor lo hi lazy (runLen a s i)).findSome? (fun n => k (i + n))
  | .wb => if wordBoundary s i then k i else none
  | .bol => if i == 0 then k i else none
  | .eol =>
      if i == s.length
          || (i + 1 == s.length
              && (match s.get? i with
                  | some c => c == '\n'
                  | none => false)) then k i
      else none

def piecesMatch (ps : List Piece) (s : List Char) (i : Nat) (k : Nat → Option MRes) :
    Option MRes :=
  match ps with
  | [] => k i
  | p :: rest => pieceMatch p s i (fun j => piecesMatch rest s j k)

def setCap (ab : Nat × Nat) (r : MRes) : MRes := { r with cap := some ab }

def itemMatch (it : Item) (s : List Char) (i : Nat) (k : Nat → Option MRes) : Option MRes :=
  match it with
  | .pc p => pieceMatch p s i k
  | .grp capture alts =>
      alts.findSome? (fun alt =>
        piecesMatch alt s i (fun j =>
          (k j).map (fun r => if capture then setCap (i, j) r else r)))

def itemsMatch (its : List Item) (s : List Char) (i : Nat) (k : Nat → Option MRes) :
    Option MRes :=
  match its with
  | [] => k i
  | it :: rest => itemMatch it s i (fun j => itemsMatch rest s j k)

/-- Attempt a match anchored at position `i`. -/
def matchAt (pat : RPattern) (s : List Char) (i : Nat) : Option MRes :=
  itemsMatch pat s i (fun j => some ⟨j, none⟩)

/-- `re.search`: try start positions left to right. -/
def reSearch (pat : RPattern) (s : List Char) : Option (Nat × MRes) :=
  (List.range (s.length + 1)).findSome? (fun i => (matchAt pat s i).map (fun r => (i, r)))

/-- Boolean form of `re.search`. -/
def reSearchB (pat : RPattern) (s : List Char) : Bool := (reSearch pat s).isSome

/-- Substring `s[a:b]`. -/
def sliceL (s : List Char) (a b : Nat) : List Char := (s.drop a).take (b - a)

/-- `match.group(1)` of a successful search, as a span of the subject. -/
def searchGroup1 (pat : RPattern) (s : List Char) : Option (Option (List Char)) :=
  match reSearch pat s with
  | some (_, r) => some (r.cap.map (fun ab => sliceL s ab.1 ab.2))
  | none => none

/-! ## The pattern catalog (`src/core/prompts.py`)

Each Python regex literal of `INTENT_PATTERNS` and
`INFO_COLLECTION_PATTERNS["extraction"]` is rendered as an `RPattern` term;
the rendering is structural (one item per regex construct, in source order).
-/

/-- `\s` as an atom. -/
def wsA : RAtom := .cls [.ws]

/-- `\d` as an atom. -/
def digA : RAtom := .cls [.dig]

/-- `[0-9]`. -/
def dig09 : RAtom := .cls [.rng '0' '9']

/-- `[a-zA-Z]`. -/
def alphaCls : RAtom := .cls [.rng 'a' 'z', .rng 'A' 'Z']

/-- `[a-zA-Z\s]`. -/
def nameCls : RAtom := .cls [.rng 'a' 'z', .rng 'A' 'Z', .ws]

/-- `[a-zA-Z0-9\-]`. -/
def polCls : RAtom := .cls [.rng 'a' 'z', .rng 'A' 'Z', .rng '0' '9', .ch '-']

/-- `[a-zA-Z0-9._%+-]` (email local part). -/
def emailLocalCls : RAtom :=
  .cls [.rng 'a' 'z', .rng 'A' 'Z', .rng '0' '9', .ch '.', .ch '_', .ch '%', .ch '+', .ch '-']

/-- `[a-zA-Z0-9.-]` (email domain). -/
def emailDomCls : RAtom := .cls [.rng 'a' 'z', .rng 'A' 'Z', .rng '0' '9', .ch '.', .ch '-']

/-- `[-.\s]` (phone separators). -/
def sepCls : RAtom := .cls [.ch '-', .ch '.', .ws]

/-- `[\s!.]`. -/
def wsBangDotCls : RAtom := .cls [.ws, .ch '!', .ch '.']

/-- `\b` as an item. -/
def wbI : Item := .pc .wb

/-- A group of literal-word alternatives `(w1|w2|...)`. -/
def wordAlt (capture : Bool) (ws : List String) : Item :=
  .grp capture (ws.map (fun w => [Piece.lit w.data]))

/-- The literal `can't` (apostrophe spelled out). -/
def cantL : List Char := 'c' :: 'a' :: 'n' :: apoc :: 't' :: []

/-- The literal `i'm` (apostrophe spelled out). -/
def imL : List Char := 'i' :: apoc :: 'm' :: []

/-- `INTENT_PATTERNS["greeting"]`. -/
def greetingPatterns : List RPattern :=
  [ [wbI, wordAlt true ["hello", "hi", "hey", "good morning", "good afternoon",
      "good evening"], wbI],
    [wbI, wordAlt true ["start", "begin", "new conversation"], wbI],
    [.pc .bol, wordAlt true ["hi", "hello", "hey"],
      .pc (.rep wsBangDotCls 0 none false), .pc .eol] ]

/-- `INTENT_PATTERNS["support"]`. -/
def supportPatterns : List RPattern :=
  [ [wbI, wordAlt true ["help", "support", "assistance", "problem", "issue", "trouble"], wbI],
    [wbI, wordAlt true ["claim", "policy", "coverage", "benefits"], wbI],
    [wbI, .grp true [[Piece.lit cantL], [Piece.lit "cannot".data], [Piece.lit "unable".data],
      [Piece.lit "difficulty".data], [Piece.lit "error".data]], wbI],
    [wbI, wordAlt true ["fix", "resolve", "solve", "repair"], wbI],
    [wbI, wordAlt true ["existing", "current", "my policy"], wbI] ]

/-- `INTENT_PATTERNS["sales"]`. -/
def salesPatterns : List RPattern :=
  [ [wbI, wordAlt true ["buy", "purchase", "get", "want", "need", "interested"], wbI,
      .pc (.rep .dot 0 none false), wbI,
      wordAlt true ["insurance", "policy", "coverage"], wbI],
    [wbI, wordAlt true ["quote", "price", "cost", "rate", "premium"], wbI],
    [wbI, wordAlt true ["new", "additional", "more"], .pc (.lit " ".data),
      wordAlt true ["insurance", "policy", "coverage"], wbI],
    [wbI, wordAlt true ["auto", "car", "home", "life", "health"],
      .pc (.lit " insurance".data), wbI],
    [wbI, wordAlt true ["sign up", "enroll", "apply"], wbI] ]

/-- `INTENT_PATTERNS["general"]`. -/
def generalPatterns : List RPattern :=
  [ [wbI, wordAlt true ["information", "info", "about", "what", "how", "when", "where",
      "why"], wbI],
    [wbI, wordAlt true ["explain", "tell me", "describe"], wbI],
    [wbI, wordAlt true ["question", "ask", "wondering"], wbI] ]

/-- `get_intent_patterns` of `src/core/prompts.py` (`.get` with default `[]`). -/
def get_intent_patterns (intent_type : String) : List RPattern :=
  if intent_type == "greeting" then greetingPatterns
  else if intent_type == "support" then supportPatterns
  else if intent_type == "sales" then salesPatterns
  else if intent_type == "general" then generalPatterns
  else []

/-- `INFO_COLLECTION_PATTERNS["extraction"]["name"]`. -/
def nameExtractionPatterns : List RPattern :=
  [ [ .grp false [[Piece.lit "my name is".data], [Piece.lit imL], [Piece.lit "i am".data],
        [Piece.lit "call me".data]],
      .pc (.rep wsA 1 none false),
      .grp true [[Piece.rep nameCls 2 (some 30) true]],
      .grp false [[Piece.rep wsA 1 none false, Piece.lit "and".data],
        [Piece.rep wsA 0 none false, Piece.lit ",".data],
        [Piece.rep wsA 0 none false, Piece.eol]] ],
    [ .pc .bol,
      .grp true [[Piece.rep nameCls 2 (some 30) true]],
      .grp false [[Piece.rep wsA 1 none false, Piece.lit "here".data], [Piece.eol]] ] ]

/-- `INFO_COLLECTION_PATTERNS["extraction"]["policy_number"]`. -/
def policyNumberExtractionPatterns : List RPattern :=
  [ [ .grp false [[Piece.lit "policy number".data], [Piece.lit "policy".data],
        [Piece.lit "number".data]],
      .pc (.rep wsA 0 none false),
      .grp false [[Piece.lit "is".data], [Piece.lit ":".data], []],
      .pc (.rep wsA 0 none false),
      .grp true [[Piece.rep polCls 1 none false]] ],
    [ wbI, .grp true [[Piece.rep alphaCls 2 (some 3) false, Piece.rep digA 6 (some 10) false]],
      wbI ],
    [ wbI, .grp true [[Piece.rep digA 8 (some 12) false]], wbI ] ]

/-- `INFO_COLLECTION_PATTERNS["extraction"]["contact_info"]`. -/
def contactInfoExtractionPatterns : List RPattern :=
  [ [ .grp true [[Piece.rep emailLocalCls 1 none false, Piece.lit "@".data,
        Piece.rep emailDomCls 1 none false, Piece.lit ".".data,
        Piece.rep alphaCls 2 none false]] ],
    [ .grp true [[Piece.rep (RAtom.cls [.ch '+']) 0 (some 1) false,
        Piece.rep (RAtom.cls [.ch '1']) 0 (some 1) false,
        Piece.rep sepCls 0 (some 1) false,
        Piece.rep (RAtom.cls [.ch '(']) 0 (some 1) false,
        Piece.rep dig09 3 (some 3) false,
        Piece.rep (RAtom.cls [.ch ')']) 0 (some 1) false,
        Piece.rep sepCls 0 (some 1) false,
        Piece.rep dig09 3 (some 3) false,
        Piece.rep sepCls 0 (some 1) false,
        Piece.rep dig09 4 (some 4) false]] ] ]

/-- `INFO_COLLECTION_PATTERNS["extraction"]["inquiry_type"]`. -/
def inquiryTypeExtractionPatterns : List RPattern :=
  [ [wbI, wordAlt true ["support", "help", "assistance", "problem", "issue", "claim"], wbI],
    [wbI, wordAlt true ["sales", "buy", "purchase", "quote", "new policy", "insurance"], wbI] ]

/-- `get_info_extraction_patterns` of `src/core/prompts.py`. -/
def get_info_extraction_patterns (field_name : String) : List RPattern :=
  if field_name == "name" then nameExtractionPatterns
  else if field_name == "policy_number" then policyNumberExtractionPatterns
  else if field_name == "contact_info" then contactInfoExtractionPatterns
  else if field_name == "inquiry_type" then inquiryTypeExtractionPatterns
  else []

/-! ## Data model (`src/core/models.py` and the session-state object) -/

/-- `UserInfo` of `src/core/models.py`: the four optional profile fields.
(The bookkeeping set `collected_fields` is not touched by any function
embedded here and is omitted.) -/
structure UserInfo where
  name : Option String := none
  policy_number : Option String := none
  contact_info : Option String := none
  inquiry_type : Option String := none
deriving DecidableEq, Repr

/-- One conversation-history entry (role, content, modality tag). -/
structure TurnMsg where
  role : String
  content : String
  source : String
deriving DecidableEq, Repr

/-- Modelled from the spec: `ConversationStateData`, the mutable session
object consumed by `process_message`, is referenced from
`src/core/conversation_flow_manager.py` but its class body is not in the
sources; per the spec it holds the CallerProfile, the current state and the
append-only turn history. -/
structure ConversationStateData where
  user_info : UserInfo
  current_state : String
  conversation_history : List TurnMsg
deriving DecidableEq, Repr

/-- Modelled from the spec: `ConversationStateData.add_message` appends one
turn record (role, text, modality) to the history, insertion-ordered. -/
def addMessage (st : ConversationStateData) (role content source : String) :
    ConversationStateData :=
  { st with conversation_history := st.conversation_history ++ [⟨role, content, source⟩] }

/-- Modelled from the spec: the result of the external generator call —
reply text plus generation metadata (latency, token count, model name). -/
structure LLMResult where
  response : String := ""
  latency_ms : Rat := 0
  token_count : Int := 0
  model_name : String := ""
deriving DecidableEq, Repr

/-- Modelled from the spec: the external generator consumed by the turn
orchestrator, taking (full prompt, context block, history) and either
returning a result or failing (`none` stands for a raised exception). -/
abbrev GenFn := String → String → List TurnMsg → Option LLMResult

/-- The per-turn result dictionary of `process_message`. -/
structure TurnResult where
  response : String
  new_state : String
  extracted_info : List (String × String)
  intent : String
  llm_latency_ms : Rat
  token_count : Int
  model_name : String
deriving DecidableEq, Repr

/-! ## Core functions (`src/core/conversation_flow_manager.py`) -/

/-- ASCII `[A-Za-z0-9]`, the complement of the class removed by
`normalize_policy_number`'s `re.sub(r'[^A-Za-z0-9]', '', ...)`. -/
def isAsciiAlnum (c : Char) : Bool :=
  (Nat.ble 'A'.toNat c.toNat && Nat.ble c.toNat 'Z'.toNat)
    || (Nat.ble 'a'.toNat c.toNat && Nat.ble c.toNat 'z'.toNat)
    || (Nat.ble '0'.toNat c.toNat && Nat.ble c.toNat '9'.toNat)

/-- `normalize_policy_number`: strip every non-alphanumeric character, then
uppercase. -/
def normalize_policy_number (raw_text : String) : String :=
  if raw_text == "" then ""
  else String.mk (((raw_text.data).filter isAsciiAlnum).map Char.toUpper)

/-- The keyword sets of the `inquiry_type` branch of `extract_user_info`
(Python tests `word in extracted_lower`, i.e. substring containment). -/
def inquirySupportWords : List String :=
  ["support", "help", "assistance", "problem", "issue", "claim"]

def inquirySalesWords : List String := ["sales", "buy", "purchase", "quote", "insurance"]

/-- The per-field normalization applied by `extract_user_info` to the
stripped capture of the first matching pattern. -/
def applyFieldNorm (field_name : String) (extracted : List Char) : String :=
  if field_name == "name" then
    joinSep " " ((pySplit extracted).map (fun w => String.mk (pyCapitalize w)))
  else if field_name == "inquiry_type" then
    let extractedLower := String.mk (pyLower extracted)
    if inquirySupportWords.any (fun w => listContainsSub w.data extractedLower.data) then
      "support"
    else if inquirySalesWords.any (fun w => listContainsSub w.data extractedLower.data) then
      "sales"
    else extractedLower
  else if field_name == "contact_info" then String.mk extracted
  else if field_name == "policy_number" then normalize_policy_number (String.mk extracted)
  else String.mk extracted

/-- `extract_user_info`: on empty/whitespace-only input no extraction;
otherwise the field's extraction patterns are tried in catalog order and the
first pattern that matches commits — its `group(1)`, stripped and
field-normalized, is the result.  (Every catalog extraction pattern makes its
single capture group participate in any match, so the capture is present
whenever a pattern matches.) -/
def extract_user_info (message : String) (field_name : String) : Option String :=
  if (pstripL message.data).isEmpty then none
  else
    match (get_info_extraction_patterns field_name).findSome?
        (fun pat => searchGroup1 pat message.data) with
    | some (some captured) => some (applyFieldNorm field_name (pstripL captured))
    | some none => none
    | none => none

/-- `determine_intent`: `none` plays the role of a non-string input. -/
def determine_intent (message : Option String) : String :=
  match message with
  | none => "general"
  | some m =>
      if (pstripL m.data).isEmpty then "general"
      else
        let messageLower := pyLower m.data
        match ["support", "sales", "greeting"].findSome? (fun intent =>
            if (get_intent_patterns intent).any (fun pat => reSearchB pat messageLower) then
              some intent
            else none) with
        | some intent => intent
        | none => "general"

/-- `transition_state`. -/
def transition_state (current_state : String) (intent : String) : String :=
  if intent == "support" then "support_flow"
  else if intent == "sales" then "sales_flow"
  else if intent == "greeting" && current_state == "error_handling" then "greeting"
  else if current_state == "error_handling" then
    if intent == "support" || intent == "sales" then intent ++ "_flow" else "greeting"
  else if current_state == "greeting" || current_state == "support_flow"
      || current_state == "sales_flow" then current_state
  else "greeting"

/-- The ordered association list `user_data` built by `_build_context` from
the stored profile (keys `name`, `phone`, `policy_id`). -/
def initialUserData (ui : UserInfo) : List (String × Option String) :=
  [("name", ui.name), ("phone", ui.contact_info), ("policy_id", ui.policy_number)]

/-- Python dict assignment `d[k] = v`: replace in place when the key exists,
else append. -/
def updAssoc (l : List (String × Option String)) (k : String) (v : Option String) :
    List (String × Option String) :=
  match l with
  | [] => [(k, v)]
  | (k', v') :: rest => if k' == k then (k, v) :: rest else (k', v') :: updAssoc rest k v

/-- The `for key, value in extracted_info.items(): if value: user_data[key] = value`
loop of `_build_context`. -/
def mergeExtracted (ud : List (String × Option String)) (extracted : List (String × String)) :
    List (String × Option String) :=
  extracted.foldl (fun acc kv => if kv.2 == "" then acc else updAssoc acc kv.1 (some kv.2)) ud

/-- Assoc lookup with Python's `user_data["phone"]` semantics (the key is
always present here; `none` doubles for a stored `None`). -/
def lookupAssoc (l : List (String × Option String)) (k : String) : Option String :=
  match l with
  | [] => none
  | (k', v) :: rest => if k' == k then v else lookupAssoc rest k

/-- The `key: value` entries of the `AVAILABLE_DATA` line, truthy values
only, in `user_data` order. -/
def availableDataEntries (ud : List (String × Option String)) : List String :=
  ud.filterMap (fun kv =>
    match kv.2 with
    | some v => if v == "" then none else some (kv.1 ++ ": " ++ v)
    | none => none)

/-- `_build_context`. -/
def build_context (state : ConversationStateData) (extracted_info : List (String × String)) :
    String :=
  let userData := mergeExtracted (initialUserData state.user_info) extracted_info
  let knownData := joinSep ", " (availableDataEntries userData)
  let parts₁ := ["### INTERNAL AGENT STATE ###"]
  let parts₂ := if knownData == "" then parts₁ else parts₁ ++ ["AVAILABLE_DATA: " ++ knownData]
  let parts₃ := parts₂ ++ ["CURRENT_PHASE: " ++ state.current_state]
  let parts₄ :=
    if state.current_state == "SALES" && !(optTruthy (lookupAssoc userData "phone")) then
      parts₃ ++ ["MISSING_REQUIRED: Phone number needed for quote."]
    else parts₃
  joinSep "\n" parts₄

/-- The fixed indicator list of `_detect_escalation_in_response`. -/
def escalation_indicators : List String :=
  [ "requires specialist assistance",
    "specialist assistance",
    "not_supported",
    "operation " ++ apoS,
    "human agent",
    "escalate",
    "transfer to specialist",
    "connect you with a specialist" ]

/-- `_detect_escalation_in_response`. -/
def detect_escalation_in_response (response : String) : Bool :=
  if response == "" then false
  else
    let responseLower := pyLower response.data
    escalation_indicators.any (fun ind => listContainsSub ind.data responseLower)

/-- `triage_and_escalate` of `src/core/tools.py`. -/
def triage_and_escalate (name issue_description phone : String) : String :=
  "SUCCESS: Handover triggered for " ++ name ++ ". Specialist will call " ++ phone
    ++ " regarding: " ++ issue_description ++ "."

/-! ## System prompts (`SYSTEM_PROMPTS` of `src/core/prompts.py`; apostrophes
are spliced in as `apoS`) -/

def greetingPrompt : String :=
  "You are Sentinel, a helpful AI insurance agent. You are greeting a new customer or continuing a conversation. \n\nYour role is to:\n- Welcome customers warmly and professionally\n- Understand what they need help with (support for existing policies or sales for new insurance)\n- Guide them to the appropriate conversation flow\n- Collect basic information like their name if they haven"
    ++ apoS
    ++ "t provided it\n\nKeep responses friendly, concise, and focused on understanding their needs. Ask clarifying questions to determine if they need support with existing policies or are interested in new insurance products."

def supportFlowPrompt : String :=
  "You are Sentinel, a helpful AI insurance agent in support mode. The customer needs help with their existing insurance policy or has questions about their coverage.\n\nYour role is to:\n- Help with policy questions, claims, coverage details, and account issues\n- Collect relevant information like policy numbers when needed\n- Provide clear explanations about their benefits and coverage\n- Guide them through processes like filing claims or updating their information\n- Escalate complex issues to human agents when appropriate\n\nBe empathetic, thorough, and solution-focused. Always prioritize the customer"
    ++ apoS ++ "s immediate needs and concerns."

def salesFlowPrompt : String :=
  "You are Sentinel, a helpful AI insurance agent in sales mode. The customer is interested in purchasing new insurance or learning about insurance products.\n\nYour role is to:\n- Understand their insurance needs and current situation\n- Explain different types of insurance products available\n- Provide general information about coverage options and benefits\n- Collect basic information to help determine their needs\n- Guide them toward getting quotes or speaking with a sales specialist\n\nBe informative, helpful, and consultative. Focus on understanding their needs rather than being pushy. Provide educational information to help them make informed decisions."

def errorHandlingPrompt : String :=
  "You are Sentinel, a helpful AI insurance agent in error recovery mode. Something went wrong, but you"
    ++ apoS
    ++ "re here to help get the conversation back on track.\n\nYour role is to:\n- Acknowledge any issues that occurred\n- Reassure the customer that you"
    ++ apoS
    ++ "re here to help\n- Determine what they were trying to accomplish\n- Guide them back to the appropriate conversation flow\n- Provide alternative ways to get help if needed\n\nBe apologetic for any inconvenience, patient, and focused on resolving their needs despite the technical issue."

/-- `get_system_prompt` (`.get` with the greeting prompt as default). -/
def get_system_prompt (state : String) : String :=
  if state == "greeting" then greetingPrompt
  else if state == "support_flow" then supportFlowPrompt
  else if state == "sales_flow" then salesFlowPrompt
  else if state == "error_handling" then errorHandlingPrompt
  else greetingPrompt

/-! ## The turn orchestrator (`process_message`) -/

/-- The field list of the extraction loop, in source order. -/
def extractionFields : List String := ["name", "policy_number", "contact_info", "inquiry_type"]

/-- `setattr(state.user_info, field, val)` for the four profile fields. -/
def setUserField (ui : UserInfo) (field val : String) : UserInfo :=
  if field == "name" then { ui with name := some val }
  else if field == "policy_number" then { ui with policy_number := some val }
  else if field == "contact_info" then { ui with contact_info := some val }
  else if field == "inquiry_type" then { ui with inquiry_type := some val }
  else ui

/-- `getattr(state.user_info, field)` for the four profile fields. -/
def getUserField (ui : UserInfo) (field : String) : Option String :=
  if field == "name" then ui.name
  else if field == "policy_number" then ui.policy_number
  else if field == "contact_info" then ui.contact_info
  else if field == "inquiry_type" then ui.inquiry_type
  else none

/-- The extraction result as guarded by Python's `if val:` truthiness check
(`None` and the empty string are both rejected). -/
def extractTruthy (message field : String) : Option String :=
  match extract_user_info message field with
  | some v => if v == "" then none else some v
  | none => none

/-- Step 2 of `process_message`: the per-field extraction loop, updating the
profile and collecting the turn-local `extracted_info` map in field order. -/
def runExtraction (message : String) (ui : UserInfo) :
    UserInfo × List (String × String) :=
  extractionFields.foldl
    (fun acc field =>
      match extractTruthy message field with
      | some val => (setUserField acc.1 field val, acc.2 ++ [(field, val)])
      | none => acc)
    (ui, [])

/-- The fixed apologetic reply of the orchestrator's failure path. -/
def apologyText : String :=
  "I apologize, but I" ++ apoS
    ++ "m having trouble processing your message right now. Could you please try again?"

/-- The degraded turn result returned when any step raises. -/
def errorTurnResult : TurnResult :=
  { response := apologyText, new_state := "error_handling", extracted_info := [],
    intent := "error", llm_latency_ms := 0, token_count := 0, model_name := "" }

/-- The fixed handoff announcement of the escalation branch. -/
def escalationMsg : String :=
  "I" ++ apoS
    ++ "ll need a specialist for that. Let me get someone from the department on the line."

/-- `process_message`: one turn.  The external generator is the parameter
`gen`; `gen ... = none` models an exception escaping from it, which the
orchestrator's `except` converts into the degraded result while keeping every
state mutation already performed (extraction and the committed state
transition).  Returns the result dictionary together with the session state
as mutated by the turn. -/
def process_message (message : String) (state : ConversationStateData) (source : String)
    (gen : GenFn) : TurnResult × ConversationStateData :=
  let intent := determine_intent (some message)
  let extPair := runExtraction message state.user_info
  let new_state := transition_state state.current_state intent
  let stateB : ConversationStateData :=
    { state with user_info := extPair.1, current_state := new_state }
  let context := build_context stateB extPair.2
  let triggerContext :=
    "\n[SYSTEM NOTE: User intent detected as " ++ intent ++ ". Current State: "
      ++ new_state ++ "]"
  let actionNudge := "\nInstruction: If you have enough info to call a tool, do it now."
  let systemPrompt := get_system_prompt new_state
  let fullPrompt := systemPrompt ++ actionNudge ++ triggerContext ++ "\n\nUser: " ++ message
  match gen fullPrompt context stateB.conversation_history with
  | none => (errorTurnResult, stateB)
  | some llm =>
      let response := llm.response
      let escalationNeeded := detect_escalation_in_response response
      let response₂ :=
        if escalationNeeded then
          let missingInfo :=
            (if !(optTruthy stateB.user_info.name) then ["name"] else [])
              ++ (if !(optTruthy stateB.user_info.contact_info) then ["phone number"] else [])
          if !missingInfo.isEmpty then
            let missingFields := joinSep " and " missingInfo
            response ++ "\n\nBefore I connect you with a specialist, I" ++ apoS
              ++ "ll need your " ++ missingFields ++ ". Could you please provide that?"
          else
            let triageResult :=
              triage_and_escalate (stateB.user_info.name.getD "") message
                (stateB.user_info.contact_info.getD "")
            response ++ "\n\n" ++ escalationMsg ++ "\n\n" ++ triageResult
        else response
      let stateC := addMessage (addMessage stateB "user" message source)
        "assistant" response₂ source
      ({ response := response₂, new_state := new_state, extracted_info := extPair.2,
         intent := intent, llm_latency_ms := llm.latency_ms,
         token_count := llm.token_count, model_name := llm.model_name }, stateC)

end Sentinel

namespace Sentinel

-- Engine sanity checks on concrete inputs.
example : reSearchB [Item.pc (Piece.lit "ell".data)] "hELLo".data = true := by decide
example : reSearchB [Item.pc Piece.bol, Item.pc (Piece.lit "b".data)] "ab".data = false := by
  decide
example :
    reSearch [Item.grp true [[Piece.rep (RAtom.cls [CAtom.rng 'a' 'z']) 1 none false]]]
        "x9ab".data = some (0, ⟨1, some (0, 1)⟩) := by decide

-- Cross-checks of the engine against CPython `re.search(..., re.IGNORECASE)`
-- on the catalog patterns.
example :
    searchGroup1 (nameExtractionPatterns.get! 0) "My name is John Smith".data
      = some (some "John Smith".data) := by decide
example :
    searchGroup1 (nameExtractionPatterns.get! 1) "hello".data
      = some (some "hello".data) := by decide
example : extract_user_info "9999" "name" = none := by decide
example :
    searchGroup1 (policyNumberExtractionPatterns.get! 0)
        "my policy number is p-o-l-1-2-3".data
      = some (some "p-o-l-1-2-3".data) := by decide
example :
    searchGroup1 (contactInfoExtractionPatterns.get! 1)
        "call me at 555-123-4567 thanks".data
      = some (some " 555-123-4567".data) := by decide
example :
    searchGroup1 (contactInfoExtractionPatterns.get! 0) "john.doe@example.com".data
      = some (some "john.doe@example.com".data) := by decide
example : extract_user_info "POL123456 is mine" "policy_number" = some "POL123456" := by
  decide
example : extract_user_info "Jane Doe here" "name" = some "Jane Doe" := by decide
example :
    extract_user_info ("Hi, I" ++ apoS ++ "m Jane Doe and I have a claim issue") "name"
      = some "Jane Doe" := by decide
example :
    determine_intent (some ("Hi, I" ++ apoS ++ "m Jane Doe and I have a claim issue"))
      = "support" := by decide
example : determine_intent (some "hello there") = "greeting" := by decide
example : determine_intent (some "I want to buy home insurance") = "sales" := by decide
example : determine_intent (some "xyzzy") = "general" := by decide

/-! ## Helper lemmas -/

/-- The state enumeration of `ConversationState` (`src/core/models.py`). -/
def statesList : List String := ["greeting", "support_flow", "sales_flow", "error_handling"]

/-- The intent vocabulary produced by `determine_intent`. -/
def intentsList : List String := ["greeting", "support", "sales", "general"]

/-- `[A-Z0-9]`: the character set of a normalized policy number. -/
def isUpperOrDigit (c : Char) : Bool :=
  (Nat.ble 'A'.toNat c.toNat && Nat.ble c.toNat 'Z'.toNat)
    || (Nat.ble '0'.toNat c.toNat && Nat.ble c.toNat '9'.toNat)

theorem toNat_ofNat_small (n : Nat) (h : n < 55296) : (Char.ofNat n).toNat = n := by
  rw [Char.ofNat, dif_pos (Or.inl h)]
  simp [Char.ofNatAux, Char.toNat, UInt32.ofNat', UInt32.toNat]

theorem isUpperOrDigit_toUpper (c : Char) (h : isAsciiAlnum c = true) :
    isUpperOrDigit (Char.toUpper c) = true := by
  simp only [isAsciiAlnum, Bool.or_eq_true, Bool.and_eq_true, Nat.ble_eq,
    show 'A'.toNat = 65 from rfl, show 'Z'.toNat = 90 from rfl,
    show 'a'.toNat = 97 from rfl, show 'z'.toNat = 122 from rfl,
    show '0'.toNat = 48 from rfl, show '9'.toNat = 57 from rfl] at h
  have hup : ∀ d : Char, (65 ≤ d.toNat ∧ d.toNat ≤ 90) ∨ (48 ≤ d.toNat ∧ d.toNat ≤ 57) →
      isUpperOrDigit d = true := by
    intro d hd
    simp only [isUpperOrDigit, Bool.or_eq_true, Bool.and_eq_true, Nat.ble_eq,
      show 'A'.toNat = 65 from rfl, show 'Z'.toNat = 90 from rfl,
      show '0'.toNat = 48 from rfl, show '9'.toNat = 57 from rfl]
    omega
  rcases h with (⟨h1, h2⟩ | ⟨h1, h2⟩) | ⟨h1, h2⟩
  · rw [Char.toUpper, if_neg (by omega)]
    exact hup c (Or.inl ⟨h1, h2⟩)
  · rw [Char.toUpper, if_pos ⟨h1, h2⟩]
    refine hup _ (Or.inl ?_)
    rw [toNat_ofNat_small _ (by omega)]
    omega
  · rw [Char.toUpper, if_neg (by omega)]
    exact hup c (Or.inr ⟨h1, h2⟩)

/-- Every character of a normalized policy number is an uppercase letter or a
digit, whatever the raw capture was. -/
theorem normalize_policy_chars (raw : String) :
    (normalize_policy_number raw).data.all isUpperOrDigit = true := by
  unfold normalize_policy_number
  by_cases h : raw = ""
  · subst h; decide
  · rw [if_neg (by simpa using h)]
    show ((raw.data.filter isAsciiAlnum).map Char.toUpper).all isUpperOrDigit = true
    rw [List.all_eq_true]
    intro c hc
    rw [List.mem_map] at hc
    obtain ⟨d, hd, rfl⟩ := hc
    rw [List.mem_filter] at hd
    exact isUpperOrDigit_toUpper d hd.2

/-! ## The claims -/

/-- C3: `transition_state` is total on the four states crossed with the four
intents and lands in the state enumeration; intent `support` always yields
`support_flow` and `sales` always `sales_flow`; from `error_handling`,
`greeting` recovers to `greeting` and any intent other than `support`/`sales`
recovers to `greeting`; intent `general` keeps each of the three normal
states fixed. -/
theorem C3_transition_table : ∀ s ∈ statesList, ∀ i ∈ intentsList,
    transition_state s i ∈ statesList
      ∧ transition_state s "support" = "support_flow"
      ∧ transition_state s "sales" = "sales_flow"
      ∧ transition_state "error_handling" "greeting" = "greeting"
      ∧ ((i ≠ "support" ∧ i ≠ "sales") → transition_state "error_handling" i = "greeting")
      ∧ (s ≠ "error_handling" → transition_state s "general" = s) := by decide

theorem C3_transition_table_witness :
    transition_state "error_handling" "general" = "greeting" :=
  (C3_transition_table "error_handling" (by decide) "general" (by decide)).2.2.2.2.1
    (by decide)

/-- A state fixture for C2: committed state `sales_flow`, no phone known. -/
def salesFlowStateNoPhone : ConversationStateData :=
  { user_info := {}, current_state := "sales_flow", conversation_history := [] }

/-- C2 (refuting the claim on the code): with the committed state
`sales_flow` and no phone number known, the context block carries no
`MISSING_REQUIRED` nudge line at all — the source guards the nudge with
`state.current_state == "SALES"`, and `"SALES"` is not a value of the state
enumeration, so the condition can never hold for a committed state. -/
theorem C2_nudge_never_emitted_for_sales_flow :
    build_context salesFlowStateNoPhone []
        = "### INTERNAL AGENT STATE ###\nCURRENT_PHASE: sales_flow"
      ∧ listContainsSub "MISSING_REQUIRED".data
          (build_context salesFlowStateNoPhone []).data = false
      ∧ ("SALES" ∈ statesList) = False := by
  refine ⟨by decide, by decide, by simp; decide⟩

/-- C7: the two worked normalization examples of the spec — name extraction
title-cases the stripped capture, and policy-number extraction strips
non-alphanumerics and uppercases. -/
theorem C7_extraction_normalization_examples :
    extract_user_info "My name is john smith, and I need help" "name" = some "John Smith"
      ∧ extract_user_info "my policy number is p-o-l-1-2-3" "policy_number"
          = some "POL123" := by
  constructor
  · decide
  · decide

/-- C8: the escalation detector returns `true` exactly when the lowercased
reply contains one of the fixed indicator phrases; a reply containing
`"requires specialist assistance"` triggers it, and the empty reply does
not. -/
theorem C8_escalation_detector (r : String) :
    (detect_escalation_in_response r = true
        ↔ ∃ ind ∈ escalation_indicators, listContainsSub ind.data (pyLower r.data) = true)
      ∧ (listContainsSub "requires specialist assistance".data (pyLower r.data) = true
          → detect_escalation_in_response r = true)
      ∧ detect_escalation_in_response "" = false := by
  have key : ∀ t : String, detect_escalation_in_response t = true
      ↔ ∃ ind ∈ escalation_indicators, listContainsSub ind.data (pyLower t.data) = true := by
    intro t
    unfold detect_escalation_in_response
    by_cases ht : t = ""
    · subst ht; decide
    · rw [if_neg (by simpa using ht)]
      exact List.any_eq_true
  exact ⟨key r,
    fun h => (key r).2 ⟨"requires specialist assistance", by decide, h⟩,
    by decide⟩

theorem C8_escalation_detector_witness :
    detect_escalation_in_response "This issue requires specialist assistance." = true :=
  (C8_escalation_detector "This issue requires specialist assistance.").2.1 (by decide)

/-- C10: whenever extraction of the `policy_number` field succeeds, every
character of the returned value is an uppercase ASCII letter or a digit. -/
theorem C10_policy_value_uppercase_alnum (s v : String)
    (h : extract_user_info s "policy_number" = some v) :
    v.data.all isUpperOrDigit = true := by
  unfold extract_user_info at h
  by_cases he : (pstripL s.data).isEmpty = true
  · rw [if_pos he] at h; cases h
  · rw [if_neg he] at h
    rcases hf : (get_info_extraction_patterns "policy_number").findSome?
        (fun pat => searchGroup1 pat s.data) with _ | co
    · rw [hf] at h; cases h
    · rw [hf] at h
      rcases co with _ | cap
      · cases h
      · have hv : applyFieldNorm "policy_number" (pstripL cap) = v := by
          injection h
        have hn : applyFieldNorm "policy_number" (pstripL cap)
            = normalize_policy_number (String.mk (pstripL cap)) := rfl
        rw [← hv, hn]
        exact normalize_policy_chars _

/-- C5: `determine_intent` tries `support`, then `sales`, then `greeting`
(the pattern lists in catalog order), so a support-pattern match wins — in
particular over a simultaneous greeting-pattern match; when no pattern of the
three prioritized intents matches, or the input is empty/whitespace-only or
not a string, the result is `general`; and
`determine_intent "I need help with my claim" = "support"`. -/
theorem C5_intent_priority_order :
    (∀ m : String, (pstripL m.data).isEmpty = false
        → supportPatterns.any (fun pat => reSearchB pat (pyLower m.data)) = true
        → determine_intent (some m) = "support")
      ∧ (∀ m : String, (pstripL m.data).isEmpty = false
        → supportPatterns.any (fun pat => reSearchB pat (pyLower m.data)) = true
        → greetingPatterns.any (fun pat => reSearchB pat (pyLower m.data)) = true
        → determine_intent (some m) = "support")
      ∧ (∀ m : String,
        supportPatterns.any (fun pat => reSearchB pat (pyLower m.data)) = false
        → salesPatterns.any (fun pat => reSearchB pat (pyLower m.data)) = false
        → greetingPatterns.any (fun pat => reSearchB pat (pyLower m.data)) = false
        → determine_intent (some m) = "general")
      ∧ determine_intent none = "general"
      ∧ determine_intent (some "") = "general"
      ∧ determine_intent (some "I need help with my claim") = "support" := by
  refine ⟨?_, ?_, ?_, by decide, by decide, by decide⟩
  · intro m he hs
    simp [determine_intent, he, get_intent_patterns, List.findSome?_cons, hs,
      -List.any_eq_true]
  · intro m he hs _hg
    simp [determine_intent, he, get_intent_patterns, List.findSome?_cons, hs,
      -List.any_eq_true]
  · intro m h1 h2 h3
    by_cases he : (pstripL m.data).isEmpty = true
    · simp [determine_intent, he]
    · simp [determine_intent, he, get_intent_patterns, List.findSome?_cons, h1, h2, h3,
        -List.any_eq_true]

theorem C5_intent_priority_order_witness :
    determine_intent (some "I need help with my claim") = "support" :=
  C5_intent_priority_order.1 "I need help with my claim" (by decide) (by decide)

theorem C10_policy_value_uppercase_alnum_witness :
    extract_user_info "my policy number is p-o-l-1-2-3" "policy_number" = some "POL123"
      ∧ ("POL123".data.all isUpperOrDigit) = true :=
  ⟨by decide, C10_policy_value_uppercase_alnum "my policy number is p-o-l-1-2-3" "POL123"
    (by decide)⟩

/-! ### Frame lemmas for the extraction loop and the orchestrator -/

theorem runExtraction_field_name (m : String) (ui : UserInfo) :
    (runExtraction m ui).1.name
      = match extractTruthy m "name" with
        | some v => some v
        | none => ui.name := by
  unfold runExtraction extractionFields
  rcases h1 : extractTruthy m "name" with _ | v1 <;>
    rcases h2 : extractTruthy m "policy_number" with _ | v2 <;>
      rcases h3 : extractTruthy m "contact_info" with _ | v3 <;>
        rcases h4 : extractTruthy m "inquiry_type" with _ | v4 <;>
          simp [h1, h2, h3, h4, setUserField]

theorem runExtraction_field_policy (m : String) (ui : UserInfo) :
    (runExtraction m ui).1.policy_number
      = match extractTruthy m "policy_number" with
        | some v => some v
        | none => ui.policy_number := by
  unfold runExtraction extractionFields
  rcases h1 : extractTruthy m "name" with _ | v1 <;>
    rcases h2 : extractTruthy m "policy_number" with _ | v2 <;>
      rcases h3 : extractTruthy m "contact_info" with _ | v3 <;>
        rcases h4 : extractTruthy m "inquiry_type" with _ | v4 <;>
          simp [h1, h2, h3, h4, setUserField]

theorem runExtraction_field_contact (m : String) (ui : UserInfo) :
    (runExtraction m ui).1.contact_info
      = match extractTruthy m "contact_info" with
        | some v => some v
        | none => ui.contact_info := by
  unfold runExtraction extractionFields
  rcases h1 : extractTruthy m "name" with _ | v1 <;>
    rcases h2 : extractTruthy m "policy_number" with _ | v2 <;>
      rcases h3 : extractTruthy m "contact_info" with _ | v3 <;>
        rcases h4 : extractTruthy m "inquiry_type" with _ | v4 <;>
          simp [h1, h2, h3, h4, setUserField]

theorem runExtraction_field_inquiry (m : String) (ui : UserInfo) :
    (runExtraction m ui).1.inquiry_type
      = match extractTruthy m "inquiry_type" with
        | some v => some v
        | none => ui.inquiry_type := by
  unfold runExtraction extractionFields
  rcases h1 : extractTruthy m "name" with _ | v1 <;>
    rcases h2 : extractTruthy m "policy_number" with _ | v2 <;>
      rcases h3 : extractTruthy m "contact_info" with _ | v3 <;>
        rcases h4 : extractTruthy m "inquiry_type" with _ | v4 <;>
          simp [h1, h2, h3, h4, setUserField]

/-- Whatever the generator does and whichever branch the escalation logic
takes, the profile carried by the post-turn session state is exactly the
profile produced by the extraction loop. -/
theorem process_message_user_info (message : String) (state : ConversationStateData)
    (source : String) (gen : GenFn) :
    (process_message message state source gen).2.user_info
      = (runExtraction message state.user_info).1 := by
  simp only [process_message]
  split
  · rfl
  · simp [addMessage]

/-! ### The remaining claims -/

/-- The session state of the C1 scenario: the name field is already set. -/
def C1state : ConversationStateData :=
  { user_info := { name := some "Jane Doe" }, current_state := "greeting",
    conversation_history := [] }

/-- A generator that succeeds with an escalation-free reply. -/
def genOk : GenFn := fun _ _ _ => some {}

/-- C1 (refuting the claim on the code): the extraction step of
`process_message` overwrites the already-set `name` field ("Jane Doe") with
the freshly extracted value "John Smith" — the code re-extracts and
overwrites, it does not only fill gaps. -/
theorem C1_extraction_overwrites_set_field :
    C1state.user_info.name = some "Jane Doe"
      ∧ extractTruthy "My name is John Smith" "name" = some "John Smith"
      ∧ (process_message "My name is John Smith" C1state "text" genOk).2.user_info.name
          = some "John Smith" := by
  refine ⟨rfl, by decide, ?_⟩
  rw [process_message_user_info, runExtraction_field_name]
  decide

/-- C4: when the external generator raises (modelled by `gen = none`), the
turn degrades to the fixed apologetic reply, state `error_handling`, empty
`extracted_info`, intent `error` and zero metadata, while every profile field
the extraction step had already set this turn stays set on the session
state. -/
theorem C4_failure_semantics (message : String) (state : ConversationStateData)
    (source : String) :
    (process_message message state source (fun _ _ _ => none)).1 = errorTurnResult
      ∧ (process_message message state source (fun _ _ _ => none)).1.response = apologyText
      ∧ (process_message message state source (fun _ _ _ => none)).1.new_state
          = "error_handling"
      ∧ (process_message message state source (fun _ _ _ => none)).1.extracted_info = []
      ∧ (process_message message state source (fun _ _ _ => none)).1.intent = "error"
      ∧ (process_message message state source (fun _ _ _ => none)).1.llm_latency_ms = 0
      ∧ (process_message message state source (fun _ _ _ => none)).1.token_count = 0
      ∧ (process_message message state source (fun _ _ _ => none)).1.model_name = ""
      ∧ (∀ v, extractTruthy message "name" = some v
          → (process_message message state source (fun _ _ _ => none)).2.user_info.name
              = some v)
      ∧ (∀ v, extractTruthy message "policy_number" = some v
          → (process_message message state source
              (fun _ _ _ => none)).2.user_info.policy_number = some v)
      ∧ (∀ v, extractTruthy message "contact_info" = some v
          → (process_message message state source
              (fun _ _ _ => none)).2.user_info.contact_info = some v)
      ∧ (∀ v, extractTruthy message "inquiry_type" = some v
          → (process_message message state source
              (fun _ _ _ => none)).2.user_info.inquiry_type = some v) := by
  refine ⟨rfl, rfl, rfl, rfl, rfl, rfl, rfl, rfl, ?_, ?_, ?_, ?_⟩
  · intro v h
    rw [process_message_user_info, runExtraction_field_name, h]
  · intro v h
    rw [process_message_user_info, runExtraction_field_policy, h]
  · intro v h
    rw [process_message_user_info, runExtraction_field_contact, h]
  · intro v h
    rw [process_message_user_info, runExtraction_field_inquiry, h]

theorem C4_failure_semantics_witness :
    (process_message "My name is John Smith" C1state "text"
        (fun _ _ _ => none)).2.user_info.name = some "John Smith" :=
  (C4_failure_semantics "My name is John Smith" C1state "text").2.2.2.2.2.2.2.2.1
    "John Smith" (by decide)

/-- The profile of the C6 scenario: a stored phone number. -/
def C6profile : UserInfo := { contact_info := some "111-222-3333" }

/-- C6 (refuting the claim on the code): with a stored phone number and a
turn-local `contact_info` extraction, the `AVAILABLE_DATA` line keeps the
stale stored value under the key `phone` and adds the fresh value under the
separate key `contact_info` — the turn-local value does not override the
stored one; the field appears twice. -/
theorem C6_stored_phone_not_overridden :
    build_context ⟨C6profile, "greeting", []⟩ [("contact_info", "999-888-7777")]
        = "### INTERNAL AGENT STATE ###\nAVAILABLE_DATA: phone: 111-222-3333, contact_info: 999-888-7777\nCURRENT_PHASE: greeting"
      ∧ listContainsSub "phone: 111-222-3333".data
          (build_context ⟨C6profile, "greeting", []⟩
            [("contact_info", "999-888-7777")]).data = true := by
  constructor
  · decide
  · decide

/-- C6 amended: in the merged `user_data` that feeds the `AVAILABLE_DATA`
line, a turn-local extraction overrides the stored value only for `name`
(the one field whose extraction key coincides with a stored key); turn-local
`policy_number` and `contact_info` values are appended under their own keys
after the stored `phone` and `policy_id` entries, so those fields appear
twice when both a stored and a fresh value exist. -/
theorem C6_amended_override_only_for_name (nm ph pol nv pv cv : String)
    (h2 : ph ≠ "") (h3 : pol ≠ "")
    (h4 : nv ≠ "") (h5 : pv ≠ "") (h6 : cv ≠ "") :
    availableDataEntries (mergeExtracted
        (initialUserData
          { name := some nm, policy_number := some pol, contact_info := some ph })
        [("name", nv), ("policy_number", pv), ("contact_info", cv)])
      = ["name: " ++ nv, "phone: " ++ ph, "policy_id: " ++ pol,
         "policy_number: " ++ pv, "contact_info: " ++ cv] := by
  simp [mergeExtracted, initialUserData, updAssoc, availableDataEntries,
    h2, h3, h4, h5, h6]

theorem C6_amended_override_only_for_name_witness :
    availableDataEntries (mergeExtracted
        (initialUserData
          { name := some "Jane", policy_number := some "POL1", contact_info := some "111" })
        [("name", "John"), ("policy_number", "POL2"), ("contact_info", "222")])
      = ["name: John", "phone: 111", "policy_id: POL1", "policy_number: POL2",
         "contact_info: 222"] :=
  C6_amended_override_only_for_name "Jane" "111" "POL1" "John" "POL2" "222"
    (by decide) (by decide) (by decide) (by decide) (by decide)

/-- C9: a profile field for which this turn's extraction produces no (truthy)
value is left exactly as it was by `process_message`, whatever the generator
and the escalation logic do — set fields are never erased or replaced by an
absent extraction result. -/
theorem C9_no_extraction_no_change (message source : String)
    (state : ConversationStateData) (gen : GenFn) :
    (extractTruthy message "name" = none
        → (process_message message state source gen).2.user_info.name
            = state.user_info.name)
      ∧ (extractTruthy message "policy_number" = none
        → (process_message message state source gen).2.user_info.policy_number
            = state.user_info.policy_number)
      ∧ (extractTruthy message "contact_info" = none
        → (process_message message state source gen).2.user_info.contact_info
            = state.user_info.contact_info)
      ∧ (extractTruthy message "inquiry_type" = none
        → (process_message message state source gen).2.user_info.inquiry_type
            = state.user_info.inquiry_type) := by
  refine ⟨fun h => ?_, fun h => ?_, fun h => ?_, fun h => ?_⟩
  · rw [process_message_user_info, runExtraction_field_name, h]
  · rw [process_message_user_info, runExtraction_field_policy, h]
  · rw [process_message_user_info, runExtraction_field_contact, h]
  · rw [process_message_user_info, runExtraction_field_inquiry, h]

theorem C9_no_extraction_no_change_witness :
    (process_message "9999" C1state "text" genOk).2.user_info.name = some "Jane Doe" :=
  (C9_no_extraction_no_change "9999" "text" C1state genOk).1 (by decide)

end Sentinel
